import Mathlib

/-!
Verification of the GitHub-HireScore core against its specification.

This file shallowly embeds the three core modules of the repository:

* `src/lib/scoring.ts` (source file `part_003`): the pure scoring engine;
* `src/lib/github.ts` (source file `part_002`): cache, fetch error mapping,
  pinned-repository fetch and portfolio aggregation;
* `src/lib/ai.ts`: feedback cache key, prompt construction, model fallback
  chain, response extraction and the in-flight request table.

Modelling conventions:

* JavaScript numbers are modelled as `ℚ` (scores), `ℕ` (counts, sizes,
  lengths) and `ℤ` (millisecond timestamps, rounded totals).  Floating-point
  artefacts are out of scope; the arithmetic is exact.
* `Date.now()` and `new Date()` are modelled by passing the current time as
  an explicit `Int` (milliseconds) argument.
* Commit dates (ISO strings in the source, always consumed through
  `new Date(...)` comparisons) are modelled as `Option Int` millisecond
  timestamps; where the source interpolates the raw string into a prompt the
  decimal rendering of the timestamp stands for the ISO string.
* JavaScript `Map`s are modelled as functions `String → Option _`.
* Network and model calls are modelled by passing their outcomes as explicit
  arguments (the code under test is everything around those calls).
-/

namespace HireScore

/-! ## Data model (`src/types/github.ts`) -/

/-- `GitHubUser` from `src/types/github.ts`. -/
structure GitHubUser where
  login : String
  name : Option String
  avatar_url : String
  html_url : String
  followers : Nat
  public_repos : Nat
  bio : Option String
  company : Option String
  location : Option String
deriving DecidableEq

/-- `GitHubRepository` from `src/types/github.ts`. -/
structure GitHubRepository where
  id : Nat
  name : String
  full_name : String
  html_url : String
  description : Option String
  stargazers_count : Nat
  forks_count : Nat
  open_issues_count : Nat
  language : Option String
  topics : Option (List String)
  archived : Bool
  disabled : Bool
  size : Nat
  default_branch : String
  created_at : String
  updated_at : String
deriving DecidableEq

/-- `PinnedRepository` from `src/types/github.ts` (the nested
`primaryLanguage.name` object is flattened to the language name). -/
structure PinnedRepository where
  name : String
  description : Option String
  stargazerCount : Nat
  forkCount : Nat
  primaryLanguage : Option String
  url : String
deriving DecidableEq

/-- `RepoAnalysis` from `src/types/github.ts`.  `lastCommitDate` is the
commit timestamp in milliseconds (`null` ↦ `none`). -/
structure RepoAnalysis where
  repo : GitHubRepository
  readmePresent : Bool
  readmeLength : Nat
  hasInstallationSection : Bool
  hasUsageSection : Bool
  hasFeaturesSection : Bool
  hasScreenshotsSection : Bool
  hasBadges : Bool
  commitCount90d : Nat
  lastCommitDate : Option Int
  languages : List String
deriving DecidableEq

/-- `PortfolioMetrics` from `src/types/github.ts`. -/
structure PortfolioMetrics where
  user : GitHubUser
  repos : List RepoAnalysis
  pinnedRepos : List PinnedRepository
  totalCommits90d : Nat
  activeMonthsCount : Nat
deriving DecidableEq

/-- `ScoreBand` from `src/types/github.ts`: the four ordered band labels. -/
inductive ScoreBand where
  | recruiterReady
  | strongButImprovable
  | needsOptimization
  | majorImprovementsNeeded
deriving DecidableEq

/-- The string value of each `ScoreBand` label in the source. -/
def ScoreBand.label : ScoreBand → String
  | .recruiterReady => "Recruiter Ready"
  | .strongButImprovable => "Strong but Improvable"
  | .needsOptimization => "Needs Optimization"
  | .majorImprovementsNeeded => "Major Improvements Needed"

/-- `ScoreBreakdown` from `src/types/github.ts`. -/
structure ScoreBreakdown where
  documentation : ℚ
  codeStructure : ℚ
  activity : ℚ
  technicalDepth : ℚ
  impact : ℚ
  organization : ℚ
deriving DecidableEq

/-- `PortfolioScore` from `src/types/github.ts`; the total is an integer
(`Math.round` output, clamped). -/
structure PortfolioScore where
  total : ℤ
  breakdown : ScoreBreakdown
  band : ScoreBand
deriving DecidableEq

/-- `AiFeedback` from `src/types/github.ts`. -/
structure AiFeedback where
  summary : String
  strengths : List String
  redFlags : List String
  actionItems : List String
deriving DecidableEq

/-! ## Shared JavaScript primitives -/

/-- Whether `pat` is a prefix of `s`, on character lists. -/
def charsStartsWith : List Char → List Char → Bool
  | _, [] => true
  | [], _ :: _ => false
  | c :: cs, p :: ps => c == p && charsStartsWith cs ps

/-- Whether `pat` occurs as a contiguous substring of `s`, on character
lists. -/
def charsContain (s pat : List Char) : Bool :=
  match s with
  | [] => pat.isEmpty
  | _ :: rest => charsStartsWith s pat || charsContain rest pat

/-- JavaScript `String.prototype.includes`: substring containment. -/
def jsIncludes (s pat : String) : Bool :=
  charsContain s.toList pat.toList

/-- JavaScript `String.prototype.startsWith`. -/
def jsStartsWith (s pat : String) : Bool :=
  charsStartsWith s.toList pat.toList

/-- JavaScript `String.prototype.toLowerCase` (ASCII range, which covers
every string the source lowercases). -/
def jsToLower (s : String) : String :=
  String.mk (s.toList.map Char.toLower)

/-- JavaScript `Math.round`: round half towards positive infinity. -/
def jsRound (q : ℚ) : ℤ :=
  ⌊q + 1 / 2⌋

/-! ## Scoring engine (`src/lib/scoring.ts`, source file `part_003`) -/

/-- `clamp(value, min, max)` from `src/lib/scoring.ts`:
`Math.max(min, Math.min(max, value))`. -/
def clamp (value lo hi : ℚ) : ℚ :=
  max lo (min hi value)

/-- The number of the four README section heuristics present
(the `sections` counter in `computeDocumentationScore`). -/
def docSectionCount (r : RepoAnalysis) : Nat :=
  (if r.hasInstallationSection then 1 else 0) +
  (if r.hasUsageSection then 1 else 0) +
  (if r.hasFeaturesSection then 1 else 0) +
  (if r.hasScreenshotsSection then 1 else 0)

/-- Per-repository points of the `computeDocumentationScore` loop body:
10 base for a README, +5 for length > 300, +`min(sections × 1.5, 6)`,
+2 for badges; 0 for a repository with no README. -/
def docPoints (r : RepoAnalysis) : ℚ :=
  if r.readmePresent then
    10 + (if r.readmeLength > 300 then 5 else 0)
      + min ((docSectionCount r : ℚ) * 1.5) 6
      + (if r.hasBadges then 2 else 0)
  else 0

/-- `computeDocumentationScore` from `src/lib/scoring.ts`: sum of per-repo
points, normalized by `repos.length * 23`, scaled to 20 and clamped. -/
def computeDocumentationScore (metrics : PortfolioMetrics) : ℚ :=
  if metrics.repos.length = 0 then 0
  else
    let score := (metrics.repos.map docPoints).sum
    let maxPossible : ℚ := (metrics.repos.length : ℚ) * 23
    if maxPossible = 0 then 0
    else clamp (score / maxPossible * 20) 0 20

/-- The repositories considered by `computeCodeStructureScore`: size ≥ 50 KB
and neither archived nor disabled (the loop `continue`s on the others). -/
def codeStructureConsidered (repos : List RepoAnalysis) : List RepoAnalysis :=
  repos.filter fun r =>
    !(decide (r.repo.size < 50)) && !r.repo.archived && !r.repo.disabled

/-- Per-repository points of the `computeCodeStructureScore` loop body for a
considered repository: +3 meaningful name, +2 long description, +3 stack
keyword in the description. -/
def codeStructurePoints (r : RepoAnalysis) : ℚ :=
  let name := jsToLower r.repo.name
  let namePts : ℚ :=
    if !(jsStartsWith name "test-") && !(jsStartsWith name "playground") then 3 else 0
  let descPts : ℚ :=
    match r.repo.description with
    | some d => if d.length > 40 then 2 else 0
    | none => 0
  let text := jsToLower (r.repo.description.getD "")
  let stackPts : ℚ :=
    if jsIncludes text "next.js" || jsIncludes text "react" ||
       jsIncludes text "node" || jsIncludes text "express" ||
       jsIncludes text "django" || jsIncludes text "fastapi" ||
       jsIncludes text "nest" || jsIncludes text "kubernetes" ||
       jsIncludes text "microservice" then 3 else 0
  namePts + descPts + stackPts

/-- `computeCodeStructureScore` from `src/lib/scoring.ts`. -/
def computeCodeStructureScore (metrics : PortfolioMetrics) : ℚ :=
  if metrics.repos.length = 0 then 0
  else
    let considered := codeStructureConsidered metrics.repos
    if considered.length = 0 then 0
    else
      let score := (considered.map codeStructurePoints).sum
      let maxPossible : ℚ := (considered.length : ℚ) * 8
      clamp (score / maxPossible * 20) 0 20

/-- 90 days in milliseconds.  The source computes `ninetyDaysAgo` with
`Date.prototype.setDate(now.getDate() - 90)`; the calendar arithmetic is
modelled as a fixed 90-day millisecond offset from `now`. -/
def NINETY_DAYS_MS : Int := 90 * 24 * 60 * 60 * 1000

/-- The `recentTouchCount` computed inside `computeActivityScore`: the number
of repositories whose last commit date is on or after `now - 90 days`. -/
def recentTouchCount (metrics : PortfolioMetrics) (now : Int) : Nat :=
  let ninetyDaysAgo := now - NINETY_DAYS_MS
  metrics.repos.foldl
    (fun acc r =>
      match r.lastCommitDate with
      | none => acc
      | some d => if ninetyDaysAgo ≤ d then acc + 1 else acc)
    0

/-- `computeActivityScore` from `src/lib/scoring.ts`.  It reads the current
time (`new Date()` in the source), passed here as `now`. -/
def computeActivityScore (metrics : PortfolioMetrics) (now : Int) : ℚ :=
  if metrics.repos.length = 0 then 0
  else
    let base : ℚ :=
      if metrics.totalCommits90d = 0 then 0
      else if metrics.totalCommits90d < 20 then 6
      else if metrics.totalCommits90d < 60 then 10
      else if metrics.totalCommits90d < 150 then 15
      else 18
    let score := if recentTouchCount metrics now ≥ 3 then base + 2 else base
    clamp score 0 20

/-- The advanced-stack keyword test of `computeTechnicalDepthScore`. -/
def advancedStackKeyword (text : String) : Bool :=
  jsIncludes text "machine learning" || jsIncludes text "deep learning" ||
  jsIncludes text "ai" || jsIncludes text "llm" ||
  jsIncludes text "graphql" || jsIncludes text "kubernetes" ||
  jsIncludes text "docker" || jsIncludes text "cloud" ||
  jsIncludes text "aws" || jsIncludes text "gcp" ||
  jsIncludes text "azure" || jsIncludes text "microservice"

/-- `computeTechnicalDepthScore` from `src/lib/scoring.ts`.  The loop skips
archived/disabled repositories; the language `Set` is modelled by `dedup`. -/
def computeTechnicalDepthScore (metrics : PortfolioMetrics) : ℚ :=
  if metrics.repos.length = 0 then 0
  else
    let active := metrics.repos.filter fun r => !r.repo.archived && !r.repo.disabled
    let languages := (active.filterMap fun r => r.repo.language).dedup
    let largeProjects := (active.filter fun r => decide (r.repo.size > 1000)).length
    let advancedStacks :=
      (active.filter fun r => advancedStackKeyword (jsToLower (r.repo.description.getD ""))).length
    let score : ℚ :=
      (if languages.length ≥ 1 then 4 else 0) +
      (if languages.length ≥ 3 then 3 else 0) +
      (if largeProjects ≥ 1 then 4 else 0) +
      (if largeProjects ≥ 3 then 2 else 0) +
      (if advancedStacks ≥ 1 then 2 else 0) +
      (if advancedStacks ≥ 3 then 2 else 0)
    clamp score 0 15

/-- `computeImpactScore` from `src/lib/scoring.ts`. -/
def computeImpactScore (metrics : PortfolioMetrics) : ℚ :=
  if metrics.repos.length = 0 then 0
  else
    let totalStars := (metrics.repos.map fun r => r.repo.stargazers_count).sum
    let totalForks := (metrics.repos.map fun r => r.repo.forks_count).sum
    let totalIssues := (metrics.repos.map fun r => r.repo.open_issues_count).sum
    let score : ℚ :=
      (if totalStars > 0 then 4 else 0) +
      (if totalStars > 10 then 3 else 0) +
      (if totalStars > 50 then 3 else 0) +
      (if totalForks > 0 then 2 else 0) +
      (if totalForks > 10 then 2 else 0) -
      (if totalIssues > 20 then 2 else 0)
    clamp score 0 15

/-- `computeOrganizationScore` from `src/lib/scoring.ts`. -/
def computeOrganizationScore (metrics : PortfolioMetrics) : ℚ :=
  if metrics.repos.length = 0 then 0
  else
    let completeRepos := metrics.repos.filter fun r =>
      r.readmePresent && !r.repo.archived && !r.repo.disabled
    let archivedJunk := (metrics.repos.filter fun r =>
      r.repo.archived && decide (r.repo.size < 50)).length
    let score : ℚ :=
      (if metrics.pinnedRepos.length ≥ 1 then 4 else 0) +
      (if metrics.pinnedRepos.length ≥ 3 then 2 else 0) +
      (if completeRepos.length ≥ 3 then 3 else 0) +
      (if completeRepos.length ≥ 5 then 1 else 0) +
      (if archivedJunk ≥ 3 then 2 else 0)
    clamp score 0 10

/-- `getBand` from `src/lib/scoring.ts`. -/
def getBand (total : ℤ) : ScoreBand :=
  if total ≥ 85 then .recruiterReady
  else if total ≥ 70 then .strongButImprovable
  else if total ≥ 50 then .needsOptimization
  else .majorImprovementsNeeded

/-- `computePortfolioScore` from `src/lib/scoring.ts`.  The activity
sub-score reads the clock, so the current time is an explicit argument.
The total is `clamp(Math.round(totalRaw), 0, 100)`, an integer. -/
def computePortfolioScore (metrics : PortfolioMetrics) (now : Int) : PortfolioScore :=
  let breakdown : ScoreBreakdown :=
    { documentation := computeDocumentationScore metrics
      codeStructure := computeCodeStructureScore metrics
      activity := computeActivityScore metrics now
      technicalDepth := computeTechnicalDepthScore metrics
      impact := computeImpactScore metrics
      organization := computeOrganizationScore metrics }
  let totalRaw :=
    breakdown.documentation + breakdown.codeStructure + breakdown.activity +
    breakdown.technicalDepth + breakdown.impact + breakdown.organization
  let total : ℤ := max 0 (min 100 (jsRound totalRaw))
  { total := total, breakdown := breakdown, band := getBand total }

/-! ## GitHub data layer (`src/lib/github.ts`, source file `part_002`) -/

/-- `CacheEntry<T>` from `src/lib/github.ts`: a timestamped value. -/
structure CacheEntry (α : Type) where
  timestamp : Int
  data : α
deriving DecidableEq

/-- A JavaScript `Map<string, CacheEntry<T>>` modelled as a function. -/
def CacheMap (α : Type) : Type := String → Option (CacheEntry α)

/-- The empty cache map (a fresh `new Map()`). -/
def CacheMap.empty {α : Type} : CacheMap α := fun _ => none

/-- `map.set(key, entry)`. -/
def CacheMap.set {α : Type} (m : CacheMap α) (key : String) (e : CacheEntry α) :
    CacheMap α :=
  fun k => if k = key then some e else m k

/-- `map.delete(key)`. -/
def CacheMap.del {α : Type} (m : CacheMap α) (key : String) : CacheMap α :=
  fun k => if k = key then none else m k

/-- `CACHE_TTL_MS` from `src/lib/github.ts`: 10 minutes. -/
def CACHE_TTL_MS : Int := 10 * 60 * 1000

/-- The shared lookup shape of `fromCache` (`src/lib/github.ts`) and
`fromAiCache` (`src/lib/ai.ts`): return `none` on a missing entry; delete the
entry and return `none` when `now - timestamp > ttl`; otherwise return the
stored data unchanged.  Returns the result together with the updated map. -/
def cacheLookup {α : Type} (ttl : Int) (m : CacheMap α) (key : String)
    (now : Int) : Option α × CacheMap α :=
  match m key with
  | none => (none, m)
  | some entry =>
    if now - entry.timestamp > ttl then (none, m.del key)
    else (some entry.data, m)

/-- `fromCache` from `src/lib/github.ts` (TTL `CACHE_TTL_MS`). -/
def fromCache {α : Type} (m : CacheMap α) (key : String) (now : Int) :
    Option α × CacheMap α :=
  cacheLookup CACHE_TTL_MS m key now

/-- `setCache` from `src/lib/github.ts`: store `(Date.now(), data)`. -/
def setCache {α : Type} (m : CacheMap α) (key : String) (data : α)
    (now : Int) : CacheMap α :=
  m.set key ⟨now, data⟩

/-- An HTTP response as observed by `githubFetch`: status, headers, raw body
text and the (externally) parsed JSON body of type `α`. -/
structure HttpResponse (α : Type) where
  status : Nat
  headers : String → Option String
  bodyText : String
  json : α

/-- `res.ok` of the fetch API: status in the 2xx range. -/
def HttpResponse.ok {α : Type} (res : HttpResponse α) : Bool :=
  decide (200 ≤ res.status) && decide (res.status ≤ 299)

/-- The error message thrown by `githubFetch` on a 404. -/
def notFoundMessage : String := "GitHub user or resource not found."

/-- The error message thrown by `githubFetch` on a 403 with the
`x-ratelimit-remaining` header equal to `"0"`. -/
def rateLimitedMessage : String :=
  "GitHub API rate limit exceeded. Please try again later."

/-- The error message thrown by `githubFetch` on any other 403. -/
def forbiddenMessage : String :=
  "GitHub API access forbidden. Check token permissions."

/-- The error-mapping portion of `githubFetch` from `src/lib/github.ts`,
applied to a received response (the token check and the network call itself
precede this and are modelled elsewhere).  Thrown `Error`s are modelled by
their message strings. -/
def githubFetch {α : Type} (res : HttpResponse α) : Except String α :=
  if res.status = 404 then
    .error notFoundMessage
  else if res.status = 403 then
    if res.headers "x-ratelimit-remaining" = some "0" then
      .error rateLimitedMessage
    else .error forbiddenMessage
  else if !res.ok then
    .error ("GitHub API error: " ++ toString res.status ++ " " ++ res.bodyText)
  else
    .ok res.json

/-- The outcome of the GraphQL `fetch` call inside `fetchPinnedRepos`:
either the promise rejects (network failure, or `res.json()` failing), or a
response arrives, described by `res.ok`, whether the parsed body has an
`errors` field or lacks `data.user`, and the pinned nodes on success. -/
inductive PinnedFetchOutcome where
  | reject (message : String)
  | response (ok : Bool) (hasErrors : Bool) (hasUser : Bool)
      (nodes : List PinnedRepository)

/-- `fetchPinnedRepos` from `src/lib/github.ts`.  After a cache miss it
requires the GitHub token (`getToken` throws when absent), then performs the
GraphQL call: a rejected call propagates; a non-ok response or a GraphQL
error / missing-user body degrades to `[]` (without caching); a good
response is cached and returned. -/
def fetchPinnedRepos (c : CacheMap (List PinnedRepository)) (username : String)
    (now : Int) (hasToken : Bool) (outcome : PinnedFetchOutcome) :
    Except String (List PinnedRepository × CacheMap (List PinnedRepository)) :=
  match fromCache c username now with
  | (some cached, c') => .ok (cached, c')
  | (none, c') =>
    if !hasToken then
      .error "Missing GITHUB_TOKEN in environment variables."
    else
      match outcome with
      | .reject message => .error message
      | .response ok hasErrors hasUser nodes =>
        if !ok then .ok ([], c')
        else if hasErrors || !hasUser then .ok ([], c')
        else .ok (nodes, setCache c' username nodes now)

/-- The `activeMonthsAll` set built by `analyzePortfolio`
(`src/lib/github.ts` lines 257–270): for every analysis with a positive
90-day commit count the constant string `"recent"` is inserted. -/
def activeMonthsAll (analyses : List RepoAnalysis) : Finset String :=
  analyses.foldl
    (fun s a => if a.commitCount90d > 0 then insert "recent" s else s)
    ∅

/-- The aggregation tail of `analyzePortfolio` (`src/lib/github.ts` lines
256–278): total 90-day commits and the `activeMonthsCount` assembled from
the per-repository analyses. -/
def aggregatePortfolio (user : GitHubUser) (analyses : List RepoAnalysis)
    (pinnedRepos : List PinnedRepository) : PortfolioMetrics :=
  { user := user
    repos := analyses
    pinnedRepos := pinnedRepos
    totalCommits90d := (analyses.map fun a => a.commitCount90d).sum
    activeMonthsCount := (activeMonthsAll analyses).card }

/-- `analyzePortfolio` from `src/lib/github.ts`.  The three top-level
fetches run under `Promise.all`, which rejects as soon as any of them
rejects; the user and repository-list fetches are abstracted by their
outcomes.  The per-repository README and commit fetches swallow all their
failures (`fetchReadme` and `fetchCommitsLast90Days` each wrap their work in
`try`/`catch` and degrade to `null` / zero), so building a `RepoAnalysis`
from a repository is total and is abstracted by `analyze`. -/
def analyzePortfolio (userRes : Except String GitHubUser)
    (reposRes : Except String (List GitHubRepository))
    (pinnedCache : CacheMap (List PinnedRepository)) (username : String)
    (now : Int) (hasToken : Bool) (pinnedOutcome : PinnedFetchOutcome)
    (analyze : GitHubRepository → RepoAnalysis) :
    Except String PortfolioMetrics :=
  match userRes with
  | .error e => .error e
  | .ok user =>
    match reposRes with
    | .error e => .error e
    | .ok repos =>
      match fetchPinnedRepos pinnedCache username now hasToken pinnedOutcome with
      | .error e => .error e
      | .ok (pinnedRepos, _) =>
        .ok (aggregatePortfolio user (repos.map analyze) pinnedRepos)

/-! ## Feedback generator (`src/lib/ai.ts`) -/

/-- Left-pad a string with `'0'` up to `len` characters. -/
def padLeftZeros (len : Nat) (s : String) : String :=
  String.mk (List.replicate (len - s.length) '0') ++ s

/-- JavaScript `Number.prototype.toFixed(f)` on an exact rational: the sign,
then the magnitude rounded to `f` decimal digits, ties away from zero. -/
def jsToFixed (f : Nat) (q : ℚ) : String :=
  let sign := if q < 0 then "-" else ""
  let n : Nat := (⌊|q| * ((10 : ℚ) ^ f) + 1 / 2⌋).toNat
  let ip := n / 10 ^ f
  let fp := n % 10 ^ f
  if f = 0 then sign ++ toString ip
  else sign ++ toString ip ++ "." ++ padLeftZeros f (toString fp)

/-- `AI_CACHE_TTL_MS` from `src/lib/ai.ts`: 15 minutes. -/
def AI_CACHE_TTL_MS : Int := 15 * 60 * 1000

/-- `fromAiCache` from `src/lib/ai.ts` (same shape as `fromCache`, with the
15-minute TTL). -/
def fromAiCache (m : CacheMap AiFeedback) (key : String) (now : Int) :
    Option AiFeedback × CacheMap AiFeedback :=
  cacheLookup AI_CACHE_TTL_MS m key now

/-- `setAiCache` from `src/lib/ai.ts`. -/
def setAiCache (m : CacheMap AiFeedback) (key : String) (data : AiFeedback)
    (now : Int) : CacheMap AiFeedback :=
  m.set key ⟨now, data⟩

/-- `getAiCacheKey` from `src/lib/ai.ts`: the lowercased login, the total,
the six breakdown sub-scores rendered with `toFixed(2)`, and the repository
count, joined with `"|"`. -/
def getAiCacheKey (metrics : PortfolioMetrics) (score : PortfolioScore) : String :=
  let b := score.breakdown
  String.intercalate "|"
    [jsToLower metrics.user.login,
     toString score.total,
     jsToFixed 2 b.documentation,
     jsToFixed 2 b.codeStructure,
     jsToFixed 2 b.activity,
     jsToFixed 2 b.technicalDepth,
     jsToFixed 2 b.impact,
     jsToFixed 2 b.organization,
     toString metrics.repos.length]

/-- The projection of one repository into the `topRepos` array built inside
`generateAiFeedback` (`src/lib/ai.ts` lines 92–112). -/
structure TopRepoView where
  name : String
  description : Option String
  stars : Nat
  forks : Nat
  language : Option String
  hasReadme : Bool
  readmeLength : Nat
  hasInstallation : Bool
  hasUsage : Bool
  hasFeatures : Bool
  hasScreenshots : Bool
  hasBadges : Bool
  activity90d : Nat
  lastCommitDate : Option Int
deriving DecidableEq

/-- The `map` body of the `topRepos` construction. -/
def toTopRepoView (r : RepoAnalysis) : TopRepoView :=
  { name := r.repo.name
    description := r.repo.description
    stars := r.repo.stargazers_count
    forks := r.repo.forks_count
    language := r.repo.language
    hasReadme := r.readmePresent
    readmeLength := r.readmeLength
    hasInstallation := r.hasInstallationSection
    hasUsage := r.hasUsageSection
    hasFeatures := r.hasFeaturesSection
    hasScreenshots := r.hasScreenshotsSection
    hasBadges := r.hasBadges
    activity90d := r.commitCount90d
    lastCommitDate := r.lastCommitDate }

/-- `topRepos` from `generateAiFeedback`: the repositories sorted by star
count descending, truncated to 5, projected.  JavaScript `sort` is required
to be stable, so the descending-stars stable insertion sort produces the
same list. -/
def topRepos (metrics : PortfolioMetrics) : List TopRepoView :=
  ((metrics.repos.insertionSort fun a b =>
      b.repo.stargazers_count ≤ a.repo.stargazers_count).take 5).map toTopRepoView

/-- One hexadecimal digit, lowercase. -/
def hexDigit (n : Nat) : String :=
  String.singleton (Char.ofNat (if n < 10 then 48 + n else 87 + (n % 16)))

/-- `JSON.stringify` escaping of a single character. -/
def jsonEscapeChar (c : Char) : String :=
  if c = '"' then "\\\""
  else if c = '\\' then "\\\\"
  else if c = '\n' then "\\n"
  else if c = '\r' then "\\r"
  else if c = '\t' then "\\t"
  else if c.toNat = 8 then "\\b"
  else if c.toNat = 12 then "\\f"
  else if c.toNat < 32 then "\\u00" ++ hexDigit (c.toNat / 16) ++ hexDigit (c.toNat % 16)
  else String.singleton c

/-- `JSON.stringify` rendering of a string. -/
def jsonString (s : String) : String :=
  "\"" ++ String.join (s.toList.map jsonEscapeChar) ++ "\""

/-- `JSON.stringify` rendering of a nullable string. -/
def jsonStringOpt (o : Option String) : String :=
  match o with
  | none => "null"
  | some s => jsonString s

/-- `JSON.stringify` rendering of a boolean. -/
def jsonBool (b : Bool) : String :=
  if b then "true" else "false"

/-- `JSON.stringify(·, null, 2)` rendering of one `topRepos` element (an
item of the top-level array, hence at one indent level).  A commit date is
rendered as the quoted decimal of its timestamp (standing for the quoted
ISO string). -/
def renderTopRepoJson (r : TopRepoView) : String :=
  "  \x7b\n" ++
  "    \"name\": " ++ jsonString r.name ++ ",\n" ++
  "    \"description\": " ++ jsonStringOpt r.description ++ ",\n" ++
  "    \"stars\": " ++ toString r.stars ++ ",\n" ++
  "    \"forks\": " ++ toString r.forks ++ ",\n" ++
  "    \"language\": " ++ jsonStringOpt r.language ++ ",\n" ++
  "    \"readme\": \x7b\n" ++
  "      \"hasReadme\": " ++ jsonBool r.hasReadme ++ ",\n" ++
  "      \"length\": " ++ toString r.readmeLength ++ ",\n" ++
  "      \"hasInstallation\": " ++ jsonBool r.hasInstallation ++ ",\n" ++
  "      \"hasUsage\": " ++ jsonBool r.hasUsage ++ ",\n" ++
  "      \"hasFeatures\": " ++ jsonBool r.hasFeatures ++ ",\n" ++
  "      \"hasScreenshots\": " ++ jsonBool r.hasScreenshots ++ ",\n" ++
  "      \"hasBadges\": " ++ jsonBool r.hasBadges ++ "\n" ++
  "    \x7d,\n" ++
  "    \"activity90d\": " ++ toString r.activity90d ++ ",\n" ++
  "    \"lastCommitDate\": " ++
    (match r.lastCommitDate with
     | none => "null"
     | some d => jsonString (toString d)) ++ "\n" ++
  "  \x7d"

/-- `JSON.stringify(topRepos, null, 2)`. -/
def renderTopReposJson (l : List TopRepoView) : String :=
  if l.isEmpty then "[]"
  else "[\n" ++ String.intercalate ",\n" (l.map renderTopRepoJson) ++ "\n]"

/-- The constant `systemPrompt` of `generateAiFeedback`. -/
def systemPrompt : String :=
  "You are a senior technical recruiter evaluating GitHub portfolios. " ++
  "You are specific, concise, and brutally honest but constructive. " ++
  "You care about real-world readiness, clarity, and consistency."

/-- The `userPrompt` template literal of `generateAiFeedback`
(`src/lib/ai.ts` lines 119–156), with every interpolation slot filled. -/
def buildUserPrompt (metrics : PortfolioMetrics) (score : PortfolioScore) : String :=
  "\nGitHub portfolio snapshot:\n" ++
  "- Username: " ++ metrics.user.login ++ "\n" ++
  "- Followers: " ++ toString metrics.user.followers ++ "\n" ++
  "- Public repos: " ++ toString metrics.user.public_repos ++ "\n" ++
  "\nScore breakdown (0-100 total):\n" ++
  "- Documentation Quality (20): " ++ jsToFixed 1 score.breakdown.documentation ++ "\n" ++
  "- Code Structure & Best Practices (20): " ++ jsToFixed 1 score.breakdown.codeStructure ++ "\n" ++
  "- Activity Consistency (20): " ++ jsToFixed 1 score.breakdown.activity ++ "\n" ++
  "- Technical Depth (15): " ++ jsToFixed 1 score.breakdown.technicalDepth ++ "\n" ++
  "- Impact & Relevance (15): " ++ jsToFixed 1 score.breakdown.impact ++ "\n" ++
  "- Repository Organization (10): " ++ jsToFixed 1 score.breakdown.organization ++ "\n" ++
  "- Total Score: " ++ toString score.total ++ " / 100\n" ++
  "- Rating Band: " ++ score.band.label ++ "\n" ++
  "\nTop repositories (max 5):\n" ++
  renderTopReposJson (topRepos metrics) ++ "\n" ++
  "\nTASK:\n" ++
  "1. Write a short recruiter-style overall summary (3-5 sentences) on how this profile would look in a hiring pipeline.\n" ++
  "2. List 3-5 specific strengths as short bullet points.\n" ++
  "3. List 3-7 concrete red flags or weaknesses as short bullet points (focus on what would worry a hiring manager).\n" ++
  "4. Provide 3-7 prioritized, actionable improvement suggestions (each should start with a verb and be something they could reasonably do in < 1 week per item).\n" ++
  "\nConstraints:\n" ++
  "- Be specific to the metrics above; do NOT be generic.\n" ++
  "- Explicitly reference patterns you see (e.g. \"Your most active repo is X\", \"Most repos lack READMEs\", \"Stars are concentrated in one small toy project\", etc.).\n" ++
  "- The tone should be professional and direct, not fluffy.\n" ++
  "\nRespond in JSON with the following shape:\n" ++
  "\x7b\n" ++
  "  \"summary\": \"string\",\n" ++
  "  \"strengths\": [\"...\"],\n" ++
  "  \"redFlags\": [\"...\"],\n" ++
  "  \"actionItems\": [\"...\"]\n" ++
  "\x7d\n"

/-- The full conversation payload sent to the model: the two text parts
(`parts: [{ text: systemPrompt }, { text: userPrompt }]`). -/
def buildPromptParts (metrics : PortfolioMetrics) (score : PortfolioScore) :
    List String :=
  [systemPrompt, buildUserPrompt metrics score]

/-- An error thrown by `client.models.generateContent`, as inspected by the
fallback chain: an optional numeric `status` and a message. -/
structure ModelError where
  status : Option Nat
  message : String
deriving DecidableEq

/-- The `isModelNotFound` test of the fallback chain:
`error?.status === 404 || String(error?.message ?? "").toLowerCase().includes("not found")`. -/
def isModelNotFound (e : ModelError) : Bool :=
  e.status == some 404 || jsIncludes (jsToLower e.message) "not found"

/-- One part of a model response candidate; `text` is `some` when the part
has a string `text` field. -/
structure GeminiPart where
  text : Option String
deriving DecidableEq

/-- One candidate of a model response (`c.content?.parts ?? []`: a missing
`content` is modelled by an empty part list). -/
structure GeminiCandidate where
  parts : List GeminiPart
deriving DecidableEq

/-- The dynamic shape of a model response as probed by
`extractTextFromGeminiResponse`: an optional top-level string `text`, an
optional nested `response.text`, and the candidate lists found at
`candidates` and `response.candidates`. -/
structure GeminiResponse where
  text : Option String
  responseText : Option String
  candidates : List GeminiCandidate
  responseCandidates : List GeminiCandidate
deriving DecidableEq

/-- JavaScript `a || b` on strings: the first operand unless it is empty. -/
def jsOrString (a b : String) : String :=
  if a = "" then b else a

/-- `extractTextFromGeminiResponse` from `src/lib/ai.ts`. -/
def extractTextFromGeminiResponse (response : GeminiResponse) : String :=
  let fromTopLevelText := response.text.getD ""
  let fromResponseText := response.responseText.getD ""
  let fromCandidates :=
    String.intercalate "\n"
      (((response.candidates ++ response.responseCandidates).map
          fun c => c.parts).flatten.filterMap fun p => p.text)
  jsOrString fromTopLevelText
    (jsOrString fromResponseText (jsOrString fromCandidates ""))

/-- `modelsToTry` from `generateAiFeedback`. -/
def modelsToTry : List String :=
  ["gemini-1.5-flash-8b", "gemini-1.5-flash", "gemini-2.5-flash"]

/-- The outcome of one `client.models.generateContent` call. -/
inductive ModelCallOutcome where
  | ok (response : GeminiResponse)
  | err (e : ModelError)
deriving DecidableEq

/-- The model fallback loop of `generateAiFeedback` (`src/lib/ai.ts` lines
158–190), with the trailing `if (!response) throw lastModelError ?? ...`
folded in.  Returns the list of attempted model identifiers together with
either the first successful response or the error that ended the chain:
a non-"model not found" error is rethrown at once (no further models are
attempted); exhausting the list throws the last recorded error. -/
def tryModelsLoop (models : List String) (call : String → ModelCallOutcome)
    (lastModelError : Option ModelError) :
    List String × Except ModelError GeminiResponse :=
  match models with
  | [] =>
    ([], .error (lastModelError.getD ⟨none, "No supported Gemini model available."⟩))
  | m :: rest =>
    match call m with
    | .ok r => ([m], .ok r)
    | .err e =>
      if isModelNotFound e then
        let t := tryModelsLoop rest call (some e)
        (m :: t.1, t.2)
      else ([m], .error e)

/-- The fixed degraded-mode payload returned by the `catch` of
`generateAiFeedback`. -/
def fallbackFeedback : AiFeedback :=
  { summary :=
      "AI feedback generation is temporarily unavailable. You can still use the numeric scores to understand documentation, structure, activity, impact, and organization."
    strengths := []
    redFlags := []
    actionItems := [] }

/-- The body of `generateAiFeedback` after the client is obtained
(`src/lib/ai.ts` lines 158–217): run the fallback chain, extract the text
(`throw` on empty), parse and coerce it, and cache on success; any thrown
error lands in the `catch`, which returns `fallbackFeedback`.  `parse`
models `parseJsonPayload` (external `JSON.parse`, including the code-fence
stripping) combined with the defensive field coercion of lines 199–204.
Returns the produced feedback together with the value written to the cache
(`none` when nothing is cached). -/
def runFeedbackBody (call : String → ModelCallOutcome)
    (parse : String → Except String AiFeedback) :
    AiFeedback × Option AiFeedback :=
  match (tryModelsLoop modelsToTry call none).2 with
  | .error _ => (fallbackFeedback, none)
  | .ok r =>
    let text := extractTextFromGeminiResponse r
    if text = "" then (fallbackFeedback, none)
    else
      match parse text with
      | .error _ => (fallbackFeedback, none)
      | .ok feedback => (feedback, some feedback)

/-! ### The shared state of `generateAiFeedback`

`generateAiFeedback` contains no `await` of its own: its synchronous extent
— cache check, in-flight check, starting the request body up to the body's
first `await`, and registering the promise — runs atomically in the
JavaScript event loop.  The body's continuation runs when its upstream work
settles.  The two atomic phases are modelled as `generateAiFeedbackStart`
and `generateAiFeedbackSettle` acting on the shared state. -/

/-- The shared mutable state of `src/lib/ai.ts`: the feedback cache and the
in-flight promise table.  An in-flight entry is `some none` for a pending
promise and `some (some fb)` for an already-settled promise that is still
registered. -/
structure AiSharedState where
  cache : CacheMap AiFeedback
  inflight : String → Option (Option AiFeedback)

/-- The initial shared state (both maps empty). -/
def AiSharedState.init : AiSharedState :=
  { cache := CacheMap.empty, inflight := fun _ => none }

/-- What the synchronous extent of one `generateAiFeedback` call did. -/
inductive StartOutcome where
  | fromCacheHit (fb : AiFeedback)
  | attachedToInflight (promise : Option AiFeedback)
  | startedUpstream
  | settledSynchronously (fb : AiFeedback)
deriving DecidableEq

/-- The synchronous extent of `generateAiFeedback` (`src/lib/ai.ts` lines
81–224): return a fresh cache hit; otherwise attach to an existing in-flight
promise; otherwise start the body.  With an API key the body suspends at its
first upstream call and the pending promise is registered.  Without one,
`getGeminiClient` throws synchronously, the `catch` returns the fallback and
the `finally` deletes the not-yet-registered key — all before the
`aiFeedbackInFlight.set` on line 223 registers the now-settled promise. -/
def generateAiFeedbackStart (s : AiSharedState) (key : String) (now : Int)
    (hasApiKey : Bool) : StartOutcome × AiSharedState :=
  match fromAiCache s.cache key now with
  | (some cached, cache') => (.fromCacheHit cached, { s with cache := cache' })
  | (none, cache') =>
    let s' : AiSharedState := { s with cache := cache' }
    match s'.inflight key with
    | some p => (.attachedToInflight p, s')
    | none =>
      if hasApiKey then
        (.startedUpstream,
         { s' with inflight := fun k => if k = key then some none else s'.inflight k })
      else
        (.settledSynchronously fallbackFeedback,
         { s' with inflight := fun k =>
             if k = key then some (some fallbackFeedback) else s'.inflight k })

/-- The settlement of a pending request body for `key`: the body finishes
(`runFeedbackBody`), a successful feedback is written to the cache
(line 206), and the `finally` (line 219) deletes the in-flight entry —
unconditionally on this path, whether the body succeeded or failed. -/
def generateAiFeedbackSettle (s : AiSharedState) (key : String) (now : Int)
    (call : String → ModelCallOutcome)
    (parse : String → Except String AiFeedback) :
    AiFeedback × AiSharedState :=
  let r := runFeedbackBody call parse
  let cache' :=
    match r.2 with
    | some fb => setAiCache s.cache key fb now
    | none => s.cache
  (r.1,
   { cache := cache'
     inflight := fun k => if k = key then none else s.inflight k })

/-! ## Theorems -/

attribute [local semireducible] Rat.mul Rat.add Rat.sub Rat.inv Rat.ofScientific

/-- `clamp` keeps a value inside `[lo, hi]` whenever `lo ≤ hi`. -/
lemma clamp_bounds (q lo hi : ℚ) (h : lo ≤ hi) :
    lo ≤ clamp q lo hi ∧ clamp q lo hi ≤ hi :=
  ⟨le_max_left _ _, max_le h (min_le_left _ _)⟩

lemma documentation_score_bounds (m : PortfolioMetrics) :
    0 ≤ computeDocumentationScore m ∧ computeDocumentationScore m ≤ 20 := by
  by_cases h1 : m.repos.length = 0
  · simp [computeDocumentationScore, h1]
  · by_cases h2 : ((m.repos.length : ℚ) * 23 = 0)
    · simp [computeDocumentationScore, h1, h2]
    · simp only [computeDocumentationScore, h1, h2, if_false]
      exact clamp_bounds _ _ _ (by norm_num)

lemma code_structure_score_bounds (m : PortfolioMetrics) :
    0 ≤ computeCodeStructureScore m ∧ computeCodeStructureScore m ≤ 20 := by
  by_cases h1 : m.repos.length = 0
  · simp [computeCodeStructureScore, h1]
  · by_cases h2 : (codeStructureConsidered m.repos).length = 0
    · simp [computeCodeStructureScore, h1, h2]
    · simp only [computeCodeStructureScore, h1, h2, if_false]
      exact clamp_bounds _ _ _ (by norm_num)

lemma activity_score_bounds (m : PortfolioMetrics) (now : Int) :
    0 ≤ computeActivityScore m now ∧ computeActivityScore m now ≤ 20 := by
  by_cases h1 : m.repos.length = 0
  · simp [computeActivityScore, h1]
  · simp only [computeActivityScore, h1, if_false]
    exact clamp_bounds _ _ _ (by norm_num)

lemma technical_depth_score_bounds (m : PortfolioMetrics) :
    0 ≤ computeTechnicalDepthScore m ∧ computeTechnicalDepthScore m ≤ 15 := by
  by_cases h1 : m.repos.length = 0
  · simp [computeTechnicalDepthScore, h1]
  · simp only [computeTechnicalDepthScore, h1, if_false]
    exact clamp_bounds _ _ _ (by norm_num)

lemma impact_score_bounds (m : PortfolioMetrics) :
    0 ≤ computeImpactScore m ∧ computeImpactScore m ≤ 15 := by
  by_cases h1 : m.repos.length = 0
  · simp [computeImpactScore, h1]
  · simp only [computeImpactScore, h1, if_false]
    exact clamp_bounds _ _ _ (by norm_num)

lemma organization_score_bounds (m : PortfolioMetrics) :
    0 ≤ computeOrganizationScore m ∧ computeOrganizationScore m ≤ 10 := by
  by_cases h1 : m.repos.length = 0
  · simp [computeOrganizationScore, h1]
  · simp only [computeOrganizationScore, h1, if_false]
    exact clamp_bounds _ _ _ (by norm_num)

/-- C2: for every `PortfolioMetrics` (and every clock reading feeding the
activity heuristic), `computePortfolioScore` returns an integer total in
[0, 100] and every breakdown field lies within its documented bound:
documentation, codeStructure and activity in [0, 20]; technicalDepth and
impact in [0, 15]; organization in [0, 10]. -/
theorem score_total_and_breakdown_bounds (m : PortfolioMetrics) (now : Int) :
    0 ≤ (computePortfolioScore m now).total ∧
    (computePortfolioScore m now).total ≤ 100 ∧
    0 ≤ (computePortfolioScore m now).breakdown.documentation ∧
    (computePortfolioScore m now).breakdown.documentation ≤ 20 ∧
    0 ≤ (computePortfolioScore m now).breakdown.codeStructure ∧
    (computePortfolioScore m now).breakdown.codeStructure ≤ 20 ∧
    0 ≤ (computePortfolioScore m now).breakdown.activity ∧
    (computePortfolioScore m now).breakdown.activity ≤ 20 ∧
    0 ≤ (computePortfolioScore m now).breakdown.technicalDepth ∧
    (computePortfolioScore m now).breakdown.technicalDepth ≤ 15 ∧
    0 ≤ (computePortfolioScore m now).breakdown.impact ∧
    (computePortfolioScore m now).breakdown.impact ≤ 15 ∧
    0 ≤ (computePortfolioScore m now).breakdown.organization ∧
    (computePortfolioScore m now).breakdown.organization ≤ 10 := by
  refine ⟨le_max_left _ _, max_le (by norm_num) (min_le_left _ _),
    (documentation_score_bounds m).1, (documentation_score_bounds m).2,
    (code_structure_score_bounds m).1, (code_structure_score_bounds m).2,
    (activity_score_bounds m now).1, (activity_score_bounds m now).2,
    (technical_depth_score_bounds m).1, (technical_depth_score_bounds m).2,
    (impact_score_bounds m).1, (impact_score_bounds m).2,
    (organization_score_bounds m).1, (organization_score_bounds m).2⟩

/-! ### C1: determinism of the scoring function -/

/-- A repository record with all signals at their neutral values, used by
the concrete scenarios below. -/
def plainRepo : GitHubRepository :=
  { id := 0, name := "r", full_name := "alice/r", html_url := "",
    description := none, stargazers_count := 0, forks_count := 0,
    open_issues_count := 0, language := none, topics := none,
    archived := false, disabled := false, size := 0,
    default_branch := "main", created_at := "", updated_at := "" }

/-- An analysis record with all signals at their neutral values. -/
def plainAnalysis : RepoAnalysis :=
  { repo := plainRepo, readmePresent := false, readmeLength := 0,
    hasInstallationSection := false, hasUsageSection := false,
    hasFeaturesSection := false, hasScreenshotsSection := false,
    hasBadges := false, commitCount90d := 0, lastCommitDate := none,
    languages := [] }

/-- A user record with all signals at their neutral values. -/
def plainUser : GitHubUser :=
  { login := "alice", name := none, avatar_url := "", html_url := "",
    followers := 0, public_repos := 0, bio := none, company := none,
    location := none }

/-- Metrics whose three repositories all have their last commit exactly at
timestamp 0: evaluated just inside and just outside the 90-day window, the
activity sub-score differs. -/
def mClock : PortfolioMetrics :=
  { user := plainUser
    repos :=
      [{ plainAnalysis with commitCount90d := 1, lastCommitDate := some 0 },
       { plainAnalysis with commitCount90d := 1, lastCommitDate := some 0 },
       { plainAnalysis with commitCount90d := 1, lastCommitDate := some 0 }]
    pinnedRepos := []
    totalCommits90d := 3
    activeMonthsCount := 1 }

/-- C1, counterexample: `computePortfolioScore` is not a function of the
metrics alone — two evaluations of the same `PortfolioMetrics` at clock
readings one millisecond apart yield different results (the recent-touch
bonus of the activity sub-score flips when the last-commit dates fall out
of the 90-day window), refuting bit-identical determinism as claimed. -/
theorem score_determinism_counterexample :
    computePortfolioScore mClock NINETY_DAYS_MS ≠
      computePortfolioScore mClock (NINETY_DAYS_MS + 1) := by
  decide

/-- C1, amended: `computePortfolioScore` depends only on its metrics input
and on the clock reading, and on the clock only through how many
repositories' last-commit dates fall inside the 90-day window; whenever
that count agrees, two evaluations yield bit-identical breakdown
sub-scores and total. -/
theorem score_deterministic_given_clock (m : PortfolioMetrics) (t t' : Int)
    (h : recentTouchCount m t = recentTouchCount m t') :
    computePortfolioScore m t = computePortfolioScore m t' := by
  unfold computePortfolioScore computeActivityScore
  rw [h]

/-- Metrics with no repositories at all. -/
def mEmpty : PortfolioMetrics :=
  { user := plainUser, repos := [], pinnedRepos := [], totalCommits90d := 0,
    activeMonthsCount := 0 }

/-- Witness for `score_deterministic_given_clock` at concrete inputs. -/
theorem score_deterministic_given_clock_witness :
    computePortfolioScore mEmpty 0 = computePortfolioScore mEmpty 999 :=
  score_deterministic_given_clock mEmpty 0 999 (by decide)

/-! ### C3: the "active months" aggregate -/

lemma activeMonthsAll_foldl (analyses : List RepoAnalysis) (s : Finset String) :
    analyses.foldl
        (fun s a => if a.commitCount90d > 0 then insert "recent" s else s) s =
      if analyses.any (fun a => decide (0 < a.commitCount90d)) then
        insert "recent" s
      else s := by
  induction analyses generalizing s with
  | nil => simp
  | cons a l ih =>
    by_cases h : 0 < a.commitCount90d
    · simp [List.foldl_cons, List.any_cons, h, ih, Finset.insert_idem]
    · simp [List.foldl_cons, List.any_cons, h, ih]

/-- Analysis of a first distinct repository with one recent commit. -/
def activeR1 : RepoAnalysis :=
  { plainAnalysis with
      repo := { plainRepo with id := 1, name := "r1" }
      commitCount90d := 1 }

/-- Analysis of a second distinct repository with one recent commit. -/
def activeR2 : RepoAnalysis :=
  { plainAnalysis with
      repo := { plainRepo with id := 2, name := "r2" }
      commitCount90d := 1 }

/-- C3, counterexample: two distinct repositories with one recent commit
each give `activeMonthsCount = 1`, not 2 — the aggregation inserts the
constant string `"recent"` into the set, so the count never reflects the
number of active repositories. -/
theorem active_months_counterexample :
    (aggregatePortfolio plainUser [activeR1, activeR2] []).activeMonthsCount ≠
      (List.filter (fun a => decide (1 ≤ a.commitCount90d))
        [activeR1, activeR2]).length := by
  decide

/-- C3, amended: `activeMonthsCount` is 1 when at least one repository has
a positive 90-day commit count and 0 otherwise (the aggregation only ever
inserts the fixed marker `"recent"`). -/
theorem active_months_is_any_active (u : GitHubUser)
    (analyses : List RepoAnalysis) (pinned : List PinnedRepository) :
    (aggregatePortfolio u analyses pinned).activeMonthsCount =
      if analyses.any (fun a => decide (0 < a.commitCount90d)) then 1 else 0 := by
  show (activeMonthsAll analyses).card = _
  unfold activeMonthsAll
  rw [activeMonthsAll_foldl]
  by_cases h : analyses.any (fun a => decide (0 < a.commitCount90d)) = true
  · simp [h]
  · simp [h]

/-! ### C4: cache TTL semantics -/

lemma cacheLookup_set_fresh {α : Type} (ttl : Int) (m : CacheMap α)
    (key : String) (v : α) (T T' : Int) (h : T' - T ≤ ttl) :
    cacheLookup ttl (m.set key ⟨T, v⟩) key T' = (some v, m.set key ⟨T, v⟩) := by
  have h2 : ¬(T' - T > ttl) := by omega
  simp [cacheLookup, CacheMap.set, h2]

lemma cacheLookup_set_expired {α : Type} (ttl : Int) (m : CacheMap α)
    (key : String) (v : α) (T T' : Int) (h : ttl < T' - T) :
    cacheLookup ttl (m.set key ⟨T, v⟩) key T' =
      (none, (m.set key ⟨T, v⟩).del key) := by
  simp [cacheLookup, CacheMap.set, h]

/-- C4, counterexample: expiry is strict, not inclusive — a value set at
time 0 is still returned by a get at exactly `T + TTL` (for the GitHub
caches and for the AI feedback cache alike), while the claim says a get at
any `T' ≥ T + TTL` returns absent. -/
theorem cache_ttl_boundary_counterexample :
    (fromCache (setCache (CacheMap.empty : CacheMap ℕ) "alice" 42 0) "alice"
        CACHE_TTL_MS).1 = some 42 ∧
    (fromAiCache (setAiCache CacheMap.empty "k" fallbackFeedback 0) "k"
        AI_CACHE_TTL_MS).1 = some fallbackFeedback := by
  exact ⟨by decide, rfl⟩

/-- C4, amended: for every cache, a value set at time `T` is returned
unchanged — with the stored entry and its timestamp untouched, so a read
never refreshes the TTL — by a get at any `T'` with `T' - T ≤ TTL`, and the
get returns absent (evicting the entry) at any `T'` with `T' - T > TTL`
(strict time-of-write expiry: at exactly `T + TTL` the value is still
served). -/
theorem cache_ttl_strict_expiry {α : Type} (m : CacheMap α)
    (mAi : CacheMap AiFeedback) (key : String) (v : α) (fb : AiFeedback)
    (T T' : Int) :
    (T' - T ≤ CACHE_TTL_MS →
      fromCache (setCache m key v T) key T' = (some v, setCache m key v T)) ∧
    (CACHE_TTL_MS < T' - T →
      fromCache (setCache m key v T) key T' =
        (none, (setCache m key v T).del key)) ∧
    (T' - T ≤ AI_CACHE_TTL_MS →
      fromAiCache (setAiCache mAi key fb T) key T' =
        (some fb, setAiCache mAi key fb T)) ∧
    (AI_CACHE_TTL_MS < T' - T →
      fromAiCache (setAiCache mAi key fb T) key T' =
        (none, (setAiCache mAi key fb T).del key)) :=
  ⟨fun h => cacheLookup_set_fresh CACHE_TTL_MS m key v T T' h,
   fun h => cacheLookup_set_expired CACHE_TTL_MS m key v T T' h,
   fun h => cacheLookup_set_fresh AI_CACHE_TTL_MS mAi key fb T T' h,
   fun h => cacheLookup_set_expired AI_CACHE_TTL_MS mAi key fb T T' h⟩

/-- Witness for `cache_ttl_strict_expiry` at concrete inputs: a fresh read
one millisecond after the write, and an expired read one millisecond past
the TTL. -/
theorem cache_ttl_strict_expiry_witness :
    fromCache (setCache (CacheMap.empty : CacheMap ℕ) "bob" 7 0) "bob" 1 =
      (some 7, setCache (CacheMap.empty : CacheMap ℕ) "bob" 7 0) ∧
    fromCache (setCache (CacheMap.empty : CacheMap ℕ) "bob" 7 0) "bob"
        (CACHE_TTL_MS + 1) =
      (none, (setCache (CacheMap.empty : CacheMap ℕ) "bob" 7 0).del "bob") :=
  ⟨(cache_ttl_strict_expiry CacheMap.empty CacheMap.empty "bob" 7
      fallbackFeedback 0 1).1 (by decide),
   (cache_ttl_strict_expiry CacheMap.empty CacheMap.empty "bob" 7
      fallbackFeedback 0 (CACHE_TTL_MS + 1)).2.1 (by decide)⟩

/-! ### C5: feedback cache key vs. prompt -/

/-- A concrete score used by the cache-key scenarios. -/
def sKey : PortfolioScore :=
  { total := 50
    breakdown :=
      { documentation := 0, codeStructure := 0, activity := 0,
        technicalDepth := 0, impact := 0, organization := 0 }
    band := .needsOptimization }

/-- Metrics with zero followers. -/
def mKeyA : PortfolioMetrics :=
  { user := plainUser, repos := [], pinnedRepos := [], totalCommits90d := 0,
    activeMonthsCount := 0 }

/-- The same metrics except for one extra follower: the prompt changes
(the `- Followers:` line), the cache key does not. -/
def mKeyB : PortfolioMetrics :=
  { user := { plainUser with followers := 1 }, repos := [], pinnedRepos := [],
    totalCommits90d := 0, activeMonthsCount := 0 }

set_option maxRecDepth 16384 in
/-- C5, counterexample: two inputs that produce different prompts to the
generative model (their follower counts differ, and the follower count is
interpolated into the prompt) but the same feedback cache key (the key
ignores the follower count), refuting "different prompt implies different
key". -/
theorem cache_key_prompt_counterexample :
    buildPromptParts mKeyA sKey ≠ buildPromptParts mKeyB sKey ∧
    getAiCacheKey mKeyA sKey = getAiCacheKey mKeyB sKey := by
  exact ⟨by decide, by decide⟩

/-- C5, amended: the cache key is derived deterministically from exactly
the lowercased user handle, the total, each breakdown sub-score formatted
to two decimals, and the repository count — two inputs agreeing on these
components produce identical keys, even when their prompts differ (the
prompt also embeds the follower count, public repository count, band,
letter-case of the handle and per-repository metadata, none of which reach
the key). -/
theorem cache_key_component_congruence (m1 m2 : PortfolioMetrics)
    (s1 s2 : PortfolioScore)
    (hLogin : jsToLower m1.user.login = jsToLower m2.user.login)
    (hTotal : s1.total = s2.total)
    (hDoc : jsToFixed 2 s1.breakdown.documentation =
      jsToFixed 2 s2.breakdown.documentation)
    (hCs : jsToFixed 2 s1.breakdown.codeStructure =
      jsToFixed 2 s2.breakdown.codeStructure)
    (hAct : jsToFixed 2 s1.breakdown.activity =
      jsToFixed 2 s2.breakdown.activity)
    (hTd : jsToFixed 2 s1.breakdown.technicalDepth =
      jsToFixed 2 s2.breakdown.technicalDepth)
    (hImp : jsToFixed 2 s1.breakdown.impact =
      jsToFixed 2 s2.breakdown.impact)
    (hOrg : jsToFixed 2 s1.breakdown.organization =
      jsToFixed 2 s2.breakdown.organization)
    (hLen : m1.repos.length = m2.repos.length) :
    getAiCacheKey m1 s1 = getAiCacheKey m2 s2 := by
  simp only [getAiCacheKey]
  rw [hLogin, hTotal, hDoc, hCs, hAct, hTd, hImp, hOrg, hLen]

/-- Witness for `cache_key_component_congruence`: the two concrete inputs
that differ only in follower count agree on every key component, so their
keys coincide. -/
theorem cache_key_component_congruence_witness :
    getAiCacheKey mKeyA sKey = getAiCacheKey mKeyB sKey :=
  cache_key_component_congruence mKeyA mKeyB sKey sKey rfl rfl rfl rfl rfl
    rfl rfl rfl rfl

/-! ### C6: model fallback chain -/

lemma tryModelsLoop_take (models : List String)
    (call : String → ModelCallOutcome) (last : Option ModelError) :
    ∃ k, (tryModelsLoop models call last).1 = models.take k := by
  induction models generalizing last with
  | nil => exact ⟨0, rfl⟩
  | cons m rest ih =>
    cases hc : call m with
    | ok r => exact ⟨1, by simp [tryModelsLoop, hc]⟩
    | err e =>
      by_cases hn : isModelNotFound e = true
      · obtain ⟨k, hk⟩ := ih (some e)
        exact ⟨k + 1, by simp [tryModelsLoop, hc, hn, hk]⟩
      · exact ⟨1, by simp [tryModelsLoop, hc, hn]⟩

lemma tryModelsLoop_advance (models : List String)
    (call : String → ModelCallOutcome) (last : Option ModelError) (i : Nat)
    (h : i + 1 < (tryModelsLoop models call last).1.length) :
    ∃ e, call ((tryModelsLoop models call last).1.getD i "") = .err e ∧
      isModelNotFound e = true := by
  induction models generalizing last i with
  | nil => simp [tryModelsLoop] at h
  | cons m rest ih =>
    cases hc : call m with
    | ok r => rw [tryModelsLoop, hc] at h ⊢; simp at h
    | err e =>
      by_cases hn : isModelNotFound e = true
      · rw [tryModelsLoop, hc] at h ⊢
        simp only [hn, if_true] at h ⊢
        cases i with
        | zero => exact ⟨e, hc, hn⟩
        | succ j =>
          simp only [List.length_cons, List.getD_cons_succ] at h ⊢
          exact ih (some e) j (by omega)
      · rw [tryModelsLoop, hc] at h
        simp [hn] at h

lemma tryModelsLoop_abort (models : List String)
    (call : String → ModelCallOutcome) (last : Option ModelError) (j : Nat)
    (e : ModelError) (hj : j < (tryModelsLoop models call last).1.length)
    (hcall : call ((tryModelsLoop models call last).1.getD j "") = .err e)
    (hnf : isModelNotFound e = false) :
    (tryModelsLoop models call last).1.length = j + 1 ∧
    (tryModelsLoop models call last).2 = .error e := by
  induction models generalizing last j with
  | nil => simp [tryModelsLoop] at hj
  | cons m rest ih =>
    cases hc : call m with
    | ok r =>
      rw [tryModelsLoop, hc] at hj hcall ⊢
      simp only [List.length_singleton] at hj
      interval_cases j
      simp only [List.getD_cons_zero] at hcall
      rw [hc] at hcall
      cases hcall
    | err e0 =>
      by_cases hn : isModelNotFound e0 = true
      · rw [tryModelsLoop, hc] at hj hcall ⊢
        simp only [hn, if_true] at hj hcall ⊢
        cases j with
        | zero =>
          simp only [List.getD_cons_zero] at hcall
          rw [hc] at hcall
          cases hcall
          rw [hn] at hnf
          cases hnf
        | succ k =>
          simp only [List.length_cons, List.getD_cons_succ] at hj hcall ⊢
          have := ih (some e0) k (by omega) hcall
          exact ⟨by omega, this.2⟩
      · rw [tryModelsLoop, hc] at hj hcall ⊢
        dsimp only at hj hcall ⊢
        rw [if_neg hn] at hj hcall ⊢
        simp only [List.length_singleton] at hj
        interval_cases j
        simp only [List.getD_cons_zero] at hcall
        rw [hc] at hcall
        cases hcall
        exact ⟨rfl, rfl⟩

lemma runFeedbackBody_of_chain_error (call : String → ModelCallOutcome)
    (parse : String → Except String AiFeedback) (e : ModelError)
    (h : (tryModelsLoop modelsToTry call none).2 = .error e) :
    runFeedbackBody call parse = (fallbackFeedback, none) := by
  unfold runFeedbackBody
  rw [h]

/-- C6: for every behavior of the generative model and of the JSON parse,
the fallback chain attempts models in their listed order (the attempted
identifiers form a prefix of `modelsToTry`), advances past a model only on
a "model not found" failure, and on any other failure aborts immediately:
the failing model is the last one attempted, the chain ends in that error,
and the body resolves to the fixed degraded-mode payload (the fixed generic
summary and three empty lists) instead of rejecting outward. -/
theorem fallback_chain_order_and_degradation
    (call : String → ModelCallOutcome)
    (parse : String → Except String AiFeedback) :
    (∃ k, (tryModelsLoop modelsToTry call none).1 = modelsToTry.take k) ∧
    (∀ i, i + 1 < (tryModelsLoop modelsToTry call none).1.length →
      ∃ e, call ((tryModelsLoop modelsToTry call none).1.getD i "") = .err e ∧
        isModelNotFound e = true) ∧
    (∀ j e, j < (tryModelsLoop modelsToTry call none).1.length →
      call ((tryModelsLoop modelsToTry call none).1.getD j "") = .err e →
      isModelNotFound e = false →
      (tryModelsLoop modelsToTry call none).1.length = j + 1 ∧
      runFeedbackBody call parse = (fallbackFeedback, none)) := by
  refine ⟨tryModelsLoop_take modelsToTry call none,
    fun i h => tryModelsLoop_advance modelsToTry call none i h,
    fun j e hj hcall hnf => ?_⟩
  obtain ⟨hlen, herr⟩ := tryModelsLoop_abort modelsToTry call none j e hj hcall hnf
  exact ⟨hlen, runFeedbackBody_of_chain_error call parse e herr⟩

/-- A model call that always fails with an error that is not of the
"model not found" class. -/
def callBoom : String → ModelCallOutcome :=
  fun _ => .err ⟨none, "boom"⟩

/-- A parse behavior that always fails (never reached in the scenarios). -/
def parseFail : String → Except String AiFeedback :=
  fun _ => .error "unused"

/-- Witness for `fallback_chain_order_and_degradation`: when the first
model call throws a non-"model not found" error, exactly one model is
attempted and the body resolves to the degraded-mode payload. -/
theorem fallback_chain_order_and_degradation_witness :
    (tryModelsLoop modelsToTry callBoom none).1.length = 0 + 1 ∧
    runFeedbackBody callBoom parseFail = (fallbackFeedback, none) :=
  (fallback_chain_order_and_degradation callBoom parseFail).2.2 0
    ⟨none, "boom"⟩ (by decide) rfl (by decide)

/-! ### C7: pinned-repository failure handling -/

lemma fetchPinnedRepos_degrade (c : CacheMap (List PinnedRepository))
    (username : String) (now : Int) (ok hasErrors hasUser : Bool)
    (nodes : List PinnedRepository)
    (hmiss : (fromCache c username now).1 = none)
    (hfail : ok = false ∨ hasErrors = true ∨ hasUser = false) :
    fetchPinnedRepos c username now true
        (.response ok hasErrors hasUser nodes) =
      .ok ([], (fromCache c username now).2) := by
  unfold fetchPinnedRepos
  rcases h : fromCache c username now with ⟨r, c2⟩
  rw [h] at hmiss
  dsimp only at hmiss
  subst hmiss
  rcases hfail with h1 | h1 | h1
  · subst h1; cases hasErrors <;> cases hasUser <;> simp
  · subst h1; cases ok <;> cases hasUser <;> simp
  · subst h1; cases ok <;> cases hasErrors <;> simp

/-- Analysis of a third distinct repository used only as the image of the
abstracted per-repository analysis function in concrete scenarios. -/
def analyzeConst : GitHubRepository → RepoAnalysis :=
  fun _ => plainAnalysis

/-- C7, counterexample: not every pinned-repository fetch failure degrades —
when the GraphQL call rejects (network failure, or `res.json()` throwing),
`fetchPinnedRepos` has no handler for it, `Promise.all` rejects, and
`analyzePortfolio` as a whole fails with that error instead of returning
metrics with an empty pinned list. -/
theorem pinned_reject_counterexample :
    analyzePortfolio (.ok plainUser) (.ok []) CacheMap.empty "alice" 0 true
        (.reject "TypeError: fetch failed") analyzeConst =
      .error "TypeError: fetch failed" := by
  rfl

/-- C7, amended: a pinned-repository fetch failure that surfaces as an
unsuccessful HTTP response, or as a response body carrying GraphQL errors
or no user, degrades to an empty pinned list and `analyzePortfolio`
succeeds; only a rejected request (network failure or an unparsable
response body) propagates and fails the whole operation. -/
theorem pinned_failure_degrades_to_empty
    (c : CacheMap (List PinnedRepository)) (username : String) (now : Int)
    (ok hasErrors hasUser : Bool) (nodes : List PinnedRepository)
    (u : GitHubUser) (rs : List GitHubRepository)
    (analyze : GitHubRepository → RepoAnalysis)
    (hmiss : (fromCache c username now).1 = none)
    (hfail : ok = false ∨ hasErrors = true ∨ hasUser = false) :
    analyzePortfolio (.ok u) (.ok rs) c username now true
        (.response ok hasErrors hasUser nodes) analyze =
      .ok (aggregatePortfolio u (rs.map analyze) []) := by
  unfold analyzePortfolio
  rw [fetchPinnedRepos_degrade c username now ok hasErrors hasUser nodes hmiss hfail]

/-- Witness for `pinned_failure_degrades_to_empty`: a non-ok GraphQL
response on an empty cache yields a successful analysis with no pinned
repositories. -/
theorem pinned_failure_degrades_to_empty_witness :
    analyzePortfolio (.ok plainUser) (.ok []) CacheMap.empty "alice" 0 true
        (.response false false false []) analyzeConst =
      .ok (aggregatePortfolio plainUser [] []) :=
  pinned_failure_degrades_to_empty CacheMap.empty "alice" 0 false false false
    [] plainUser [] analyzeConst (by decide) (Or.inl rfl)

/-! ### C8: 403 and the rate-limit header -/

/-- C8: a 403 response whose `x-ratelimit-remaining` header is `"0"` makes
`githubFetch` fail with the rate-limited error; a 403 with any other header
value (including an absent header) fails with the forbidden error; the two
errors are distinct. -/
theorem rate_limited_vs_forbidden {α : Type} (res : HttpResponse α)
    (h403 : res.status = 403) :
    (res.headers "x-ratelimit-remaining" = some "0" →
      githubFetch res = .error rateLimitedMessage) ∧
    (res.headers "x-ratelimit-remaining" ≠ some "0" →
      githubFetch res = .error forbiddenMessage) ∧
    rateLimitedMessage ≠ forbiddenMessage := by
  refine ⟨fun hrem => ?_, fun hrem => ?_, by decide⟩
  · simp [githubFetch, h403, hrem]
  · simp [githubFetch, h403, hrem]

/-- A concrete 403 response carrying `x-ratelimit-remaining: 0`. -/
def res403Limited : HttpResponse Nat :=
  { status := 403
    headers := fun h => if h = "x-ratelimit-remaining" then some "0" else none
    bodyText := ""
    json := 0 }

/-- Witness for `rate_limited_vs_forbidden` at a concrete 403 response with
a zero remaining-quota header. -/
theorem rate_limited_vs_forbidden_witness :
    githubFetch res403Limited = .error rateLimitedMessage ∧
    rateLimitedMessage ≠ forbiddenMessage :=
  ⟨(rate_limited_vs_forbidden res403Limited rfl).1 (by decide),
   (rate_limited_vs_forbidden res403Limited rfl).2.2⟩

/-! ### C9: in-flight table clearing -/

set_option maxRecDepth 16384 in
/-- C9, failing scenario: with no API key configured, the request body of
`generateAiFeedback` settles synchronously — its `finally` deletes the
in-flight key before `aiFeedbackInFlight.set` registers the already-settled
promise — so after the call settles the in-flight entry for the key is
still present (never cleared), and a later call with the same key attaches
to the stale settled promise instead of making a fresh attempt, with the
entry persisting afterwards.  This contradicts the claim that the entry is
cleared unconditionally when the call settles. -/
theorem inflight_entry_leak_on_sync_settle :
    (generateAiFeedbackStart AiSharedState.init "k" 0 false).1 =
      .settledSynchronously fallbackFeedback ∧
    (generateAiFeedbackStart AiSharedState.init "k" 0 false).2.inflight "k" =
      some (some fallbackFeedback) ∧
    (generateAiFeedbackStart
        (generateAiFeedbackStart AiSharedState.init "k" 0 false).2
        "k" 5 true).1 = .attachedToInflight (some fallbackFeedback) ∧
    (generateAiFeedbackStart
        (generateAiFeedbackStart AiSharedState.init "k" 0 false).2
        "k" 5 true).2.inflight "k" = some (some fallbackFeedback) := by
  exact ⟨rfl, by decide, rfl, by decide⟩

/-! ### C10: the feedback cache is written only on success -/

/-- C10: every run of the feedback body either succeeds and writes exactly
the feedback it returns to the cache, or returns the fixed degraded-mode
payload and writes nothing; when the body fails, settling leaves the cache
untouched for the key, always clears the in-flight entry, and a later call
with the same key (cache still empty for that key) starts a fresh upstream
attempt instead of serving any cached fallback. -/
theorem feedback_cached_only_on_success (call : String → ModelCallOutcome)
    (parse : String → Except String AiFeedback) (s : AiSharedState)
    (key : String) (now now2 : Int) :
    ((∃ fb, runFeedbackBody call parse = (fb, some fb)) ∨
      runFeedbackBody call parse = (fallbackFeedback, none)) ∧
    (runFeedbackBody call parse = (fallbackFeedback, none) →
      (generateAiFeedbackSettle s key now call parse).2.cache = s.cache) ∧
    ((generateAiFeedbackSettle s key now call parse).2.inflight key = none) ∧
    (runFeedbackBody call parse = (fallbackFeedback, none) →
      s.cache key = none →
      (generateAiFeedbackStart (generateAiFeedbackSettle s key now call parse).2
          key now2 true).1 = .startedUpstream) := by
  refine ⟨?_, fun hfail => ?_, by simp [generateAiFeedbackSettle],
    fun hfail hnone => ?_⟩
  · rcases h : (tryModelsLoop modelsToTry call none).2 with e | r
    · right; simp [runFeedbackBody, h]
    · by_cases ht : extractTextFromGeminiResponse r = ""
      · right; simp [runFeedbackBody, h, ht]
      · rcases hp : parse (extractTextFromGeminiResponse r) with pe | fb
        · right; simp [runFeedbackBody, h, ht, hp]
        · left; exact ⟨fb, by simp [runFeedbackBody, h, ht, hp]⟩
  · simp [generateAiFeedbackSettle, hfail]
  · have hc : (generateAiFeedbackSettle s key now call parse).2.cache key = none := by
      simp [generateAiFeedbackSettle, hfail, hnone]
    have hi : (generateAiFeedbackSettle s key now call parse).2.inflight key = none := by
      simp [generateAiFeedbackSettle]
    simp [generateAiFeedbackStart, fromAiCache, cacheLookup, hc, hi]

set_option maxRecDepth 16384 in
/-- Witness for `feedback_cached_only_on_success`: after a failed body run
(first model errs with a non-"model not found" error), the cache is
untouched and a subsequent call with the same key starts a fresh upstream
attempt. -/
theorem feedback_cached_only_on_success_witness :
    (generateAiFeedbackSettle AiSharedState.init "k" 0 callBoom parseFail).2.cache =
      AiSharedState.init.cache ∧
    (generateAiFeedbackStart
        (generateAiFeedbackSettle AiSharedState.init "k" 0 callBoom parseFail).2
        "k" 1 true).1 = .startedUpstream :=
  ⟨(feedback_cached_only_on_success callBoom parseFail AiSharedState.init
      "k" 0 1).2.1 (by decide),
   (feedback_cached_only_on_success callBoom parseFail AiSharedState.init
      "k" 0 1).2.2.2 (by decide) rfl⟩

end HireScore
